import Mathlib

/-!
Shallow embedding of the issuu_finder repository
(src/issue_scraper.py and src/streamlit_app.py) and proofs about it.

External effects (HTTP requests, Playwright browser sessions, the DOM of the
result page) are modelled as explicit oracle values describing the outcome of
each effectful step; the Python control flow around those steps is translated
directly.  Python exceptions are modelled by the `Outcome` type.
-/

/-- Result of running a piece of Python code: it either returns a value or
raises an exception carrying a message. -/
inductive Outcome (α : Type) where
  | ok : α → Outcome α
  | raises : String → Outcome α
deriving DecidableEq

/-! ## Python string primitives used by the source

`str.lower`, `str.upper`, `str.strip` and `str.replace(pat, "")` are modelled
at the level of character lists.  The case maps are faithful to Python on
ASCII characters and on U+00DF (LATIN SMALL LETTER SHARP S, whose Python
uppercase is the two-character string "SS"); other characters are mapped to
themselves and are not relied on by any theorem below. -/

/-- Python `str.lower` on one character (ASCII-faithful). -/
def pyCharLowerL (c : Char) : List Char := [c.toLower]

/-- Python `str.upper` on one character (ASCII-faithful, plus U+00DF whose
Python uppercase is "SS"). -/
def pyCharUpperL (c : Char) : List Char :=
  if c = 'ß' then ['S', 'S'] else [c.toUpper]

/-- Python `str.lower` on a character list. -/
def pyLowerL (l : List Char) : List Char := (l.map pyCharLowerL).flatten

/-- Python `str.upper` on a character list. -/
def pyUpperL (l : List Char) : List Char := (l.map pyCharUpperL).flatten

/-- Python `str.lower`. -/
def pyLower (s : String) : String := String.mk (pyLowerL s.data)

/-- Python `str.upper`. -/
def pyUpper (s : String) : String := String.mk (pyUpperL s.data)

/-- Characters Python `str.strip` removes (the code points for which
Python `str.isspace` is true). -/
def isPySpace (c : Char) : Bool :=
  c.toNat ∈ [9, 10, 11, 12, 13, 28, 29, 30, 31, 32, 133, 160, 5760,
    8192, 8193, 8194, 8195, 8196, 8197, 8198, 8199, 8200, 8201, 8202,
    8232, 8233, 8239, 8287, 12288]

/-- Python `str.strip()` on a character list. -/
def pyStripL (l : List Char) : List Char :=
  ((l.dropWhile isPySpace).reverse.dropWhile isPySpace).reverse

/-- Python `str.strip()`. -/
def pyStrip (s : String) : String := String.mk (pyStripL s.data)

/-- If `pat` is a prefix of `l`, the remainder of `l` after it. -/
def stripPre : List Char → List Char → Option (List Char)
  | l, [] => some l
  | [], _ :: _ => none
  | c :: l, p :: ps => if c = p then stripPre l ps else none

/-- Worker for `removeAll`; `fuel` bounds the length of the list. -/
def removeAllL (pat : List Char) : Nat → List Char → List Char
  | _, [] => []
  | 0, l => l
  | fuel + 1, c :: l =>
    match stripPre (c :: l) pat with
    | some rest => removeAllL pat fuel rest
    | none => c :: removeAllL pat fuel l

/-- Python `s.replace(pat, "")`: delete every occurrence of `pat` from `l`,
scanning left to right, non-overlapping. -/
def removeAll (pat l : List Char) : List Char :=
  if pat.isEmpty then l else removeAllL pat l.length l

/-- Python `s.replace(pat, "")` on strings. -/
def pyRemove (s pat : String) : String := String.mk (removeAll pat.data s.data)

/-! ## difflib.SequenceMatcher ratio

`calculate_similarity` (src/issue_scraper.py line 43) calls
`SequenceMatcher(None, a.lower(), b.lower()).ratio()`.  We embed the stdlib
algorithm: `ratio = 2*M/T` where `M` is the total size of the matching blocks
found by recursive longest-matching-block decomposition and `T` the total
length.  With junk filter `None` and inputs shorter than 200 characters (the
autojunk activation bound; all concrete strings in the theorems below are far
shorter) the block search is the plain dynamic program embedded here. -/

/-- Length of the common run of `a` and `b` that ends at positions `i`, `j`
and does not extend below `alo`, `blo`. -/
def runEnd (a b : List Char) (alo blo : Nat) : Nat → Nat → Nat
  | 0, j =>
    if 0 < alo ∨ j < blo ∨ a.length = 0 ∨ b.length ≤ j then 0
    else if a.getD 0 ' ' = b.getD j ' ' then 1 else 0
  | i + 1, j =>
    if i + 1 < alo ∨ j < blo ∨ a.length ≤ i + 1 ∨ b.length ≤ j then 0
    else if a.getD (i + 1) ' ' = b.getD j ' ' then
      1 + (match j with
           | 0 => 0
           | j' + 1 => runEnd a b alo blo i j')
    else 0

/-- One candidate update of `find_longest_match`'s running best
`(besti, bestj, bestsize)` at end position `(i, j)`. -/
def flmStep (a b : List Char) (alo blo : Nat) (best : Nat × Nat × Nat)
    (i j : Nat) : Nat × Nat × Nat :=
  let k := runEnd a b alo blo i j
  if best.2.2 < k then (i + 1 - k, j + 1 - k, k) else best

/-- `SequenceMatcher.find_longest_match` on the ranges `[alo, ahi)`,
`[blo, bhi)`: the longest matching block, ties broken by lowest start in `a`
then lowest start in `b` (the discovery order of the Python dynamic
program). -/
def findLongestMatch (a b : List Char) (alo ahi blo bhi : Nat) :
    Nat × Nat × Nat :=
  (List.range (ahi - alo)).foldl
    (fun best di =>
      (List.range (bhi - blo)).foldl
        (fun best2 dj => flmStep a b alo blo best2 (alo + di) (blo + dj))
        best)
    (alo, blo, 0)

/-- Total size of all matching blocks (the recursive decomposition of
`get_matching_blocks`); `fuel` bounds the recursion depth. -/
def matchTotal (a b : List Char) : Nat → Nat → Nat → Nat → Nat → Nat
  | 0, _, _, _, _ => 0
  | fuel + 1, alo, ahi, blo, bhi =>
    let r := findLongestMatch a b alo ahi blo bhi
    if r.2.2 = 0 then 0
    else
      r.2.2 + matchTotal a b fuel alo r.1 blo r.2.1
        + matchTotal a b fuel (r.1 + r.2.2) ahi (r.2.1 + r.2.2) bhi

/-- `SequenceMatcher.ratio()` for the two character lists, in exact rational
arithmetic (`mkRat (2*M) T` is the exact value of the float `2.0*M/T` the
Python code computes), and `1` when both inputs are empty. -/
def ratioOf (a b : List Char) : ℚ :=
  let total := a.length + b.length
  if total = 0 then 1
  else mkRat (2 * (matchTotal a b (total + 1) 0 a.length 0 b.length)) total

/-- src/issue_scraper.py line 43: similarity of the lower-cased inputs. -/
def calculate_similarity (a b : String) : ℚ :=
  ratioOf (pyLowerL a.data) (pyLowerL b.data)

example : calculate_similarity "ab" "abc" = mkRat 4 5 := by decide
example : (mkRat 4 5 : ℚ) = 4 / 5 := by rw [Rat.mkRat_eq_div]; norm_num
example : calculate_similarity "ß" "ss" = 0 := by decide
example : calculate_similarity "SS" "ss" = 1 := by decide
example : pyStrip "  a b " = "a b" := by decide
example : pyRemove "a b.c b" " b" = "a.c" := by decide

/-! ## Data model

A search-result record is a Python dict.  The Playwright extraction produces
dicts with the four keys `title`, `author_link`, `price`, `publication_link`,
the requests extraction produces dicts with only `title` and
`publication_link`; `PubRecord` is the uniform view of such a dict, with
`none` standing for an absent key. -/

/-- A dict produced by the Playwright extraction (all four keys present). -/
structure Record where
  title : String
  author_link : String
  price : String
  publication_link : String
deriving DecidableEq

/-- A dict produced by the requests extraction (only two keys present). -/
structure SRecord where
  title : String
  publication_link : String
deriving DecidableEq

/-- Uniform view of a result dict: `none` marks a key the dict does not
carry. -/
structure PubRecord where
  title : Option String
  author_link : Option String
  price : Option String
  publication_link : Option String
deriving DecidableEq

/-- The dict view of a Playwright record: all four fields present. -/
def Record.toPub (r : Record) : PubRecord :=
  ⟨some r.title, some r.author_link, some r.price, some r.publication_link⟩

/-- The dict view of a requests record: `author_link` and `price` absent. -/
def SRecord.toPub (r : SRecord) : PubRecord :=
  ⟨some r.title, none, none, some r.publication_link⟩

/-! ## Dynamic (Playwright) extraction

src/issue_scraper.py lines 154-176: the in-page JavaScript reads, for every
result card, the optional title text (trimmed), author link href, price text
(trimmed) and publication link href, and keeps the card only when all four
are truthy (present and non-empty). -/

/-- What the in-page JavaScript reads off one result card: each field is
`none` when the corresponding element/attribute is absent, otherwise the
(already trimmed) string value. -/
structure Card where
  title : Option String
  authorLink : Option String
  price : Option String
  publicationLink : Option String
deriving DecidableEq

/-- JavaScript truthiness of an optional string: absent and `""` are falsy. -/
def jsTruthy : Option String → Bool
  | none => false
  | some s => !(s == "")

/-- The body of the `items.forEach` in the extraction script: keep the card
iff all four fields are truthy, prefixing relative links with the platform
origin (lines 165-171). -/
def dynCard (c : Card) : Option Record :=
  if jsTruthy c.title && jsTruthy c.authorLink && jsTruthy c.price
      && jsTruthy c.publicationLink then
    some
      { title := c.title.getD ""
        author_link := "https://issuu.com/" ++ c.authorLink.getD ""
        price := c.price.getD ""
        publication_link :=
          if (c.publicationLink.getD "").startsWith "https://" then
            c.publicationLink.getD ""
          else "https://issuu.com/" ++ c.publicationLink.getD "" }
  else none

/-- The `results` list built by the extraction script. -/
def extractDynamic (cards : List Card) : List Record :=
  cards.filterMap dynCard

/-! ## Static (requests/BeautifulSoup) extraction

src/issue_scraper.py lines 251-263: for each publication-card container, if
both an `h3` and an `a` element are present, emit a two-key dict from the
stripped `h3` text and the `a` element's `href`; a missing `href` raises
`KeyError`, which the per-card `except` swallows (the card is skipped). -/

/-- What the static parser sees in one result container: `titleText` is the
stripped text of the `h3` if present; `linkHref` is `some none` for an `a`
element without an `href` attribute, `some (some h)` for one with it. -/
structure SCard where
  titleText : Option String
  linkHref : Option (Option String)
deriving DecidableEq

/-- One iteration of the static extraction loop. -/
def staticCard (c : SCard) : Option SRecord :=
  match c.titleText, c.linkHref with
  | some t, some (some h) => some ⟨t, "https://issuu.com" ++ h⟩
  | _, _ => none

/-- The `results` list built by the static extraction loop. -/
def extractStatic (cards : List SCard) : List SRecord :=
  cards.filterMap staticCard

/-! ## Result Normalizer: deduplication by title

src/issue_scraper.py lines 179-188: a `seen_titles` set and a loop keeping
each record whose title has not been seen before. -/

/-- The dedup loop with the current contents of `seen_titles`. -/
def dedupAux (seen : List String) : List Record → List Record
  | [] => []
  | r :: rest =>
    if r.title ∈ seen then dedupAux seen rest
    else r :: dedupAux (r.title :: seen) rest

/-- The `unique_results` list: first record kept for each distinct title,
in encounter order. -/
def dedupByTitle (results : List Record) : List Record :=
  dedupAux [] results

/-! ## Match Classifier

src/issue_scraper.py lines 190-206. -/

/-- The fixed constant `similarity_threshold = 0.8` (line 193). -/
def similarity_threshold : ℚ := mkRat 8 10

/-- Line 194: `company_name.lower().replace(" ", "").replace(".", "")`. -/
def companyDomain (name : String) : String :=
  pyRemove (pyRemove (pyLower name) " ") "."

/-- Line 196: strip the platform origin from the author link, lower-case and
remove spaces and periods. -/
def authorDomain (r : Record) : String :=
  pyRemove (pyRemove (pyLower (pyRemove r.author_link "https://issuu.com/")) " ") "."

/-- The similarity the classifier computes for one record (line 197). -/
def recordScore (name : String) (r : Record) : ℚ :=
  calculate_similarity (companyDomain name) (authorDomain r)

/-- Lines 190-203: partition the deduplicated records into
`matching_results` and `non_matching_results`, preserving encounter order,
by comparing the similarity with the threshold. -/
def classify (company_name : String) (unique_results : List Record) :
    List Record × List Record :=
  unique_results.partition
    (fun r => decide (similarity_threshold ≤ recordScore company_name r))

/-! ## Module import environment

src/issue_scraper.py lines 11-28: `PLAYWRIGHT_AVAILABLE` records whether the
Playwright import succeeded; the `requests`/`bs4` import is attempted only
when that import failed, so the name `REQUESTS_AVAILABLE` is bound only in
that case.  `requests_available = none` models the unbound name (reading it
raises `NameError`). -/

/-- The module-level flags after the import section has run. -/
structure Env where
  playwright_available : Bool
  requests_available : Option Bool
deriving DecidableEq

/-- The import section: given which of the two imports would succeed, the
flags it leaves behind.  `REQUESTS_AVAILABLE` is bound only when the
Playwright import failed (lines 21-28). -/
def moduleEnv (playwrightImportOk requestsImportOk : Bool) : Env :=
  { playwright_available := playwrightImportOk
    requests_available :=
      if playwrightImportOk then none else some requestsImportOk }

/-! ## Retrievers

The outcome of the external steps of each retriever is an explicit oracle
value; the Python control flow around it is translated directly. -/

/-- Oracle for one run of the requests-based retriever: the GET together
with status check and parsing either raises or yields the parsed result
containers. -/
inductive RqStep where
  | httpFail : String → RqStep
  | okCards : List SCard → RqStep
deriving DecidableEq

/-- Oracle for one run of the Playwright retriever: session acquisition
(`init_playwright`), context/page creation, the navigation/consent/wait/
scroll phase, or extraction may raise; otherwise extraction yields the
result cards. -/
inductive PwStep where
  | initFail : String → PwStep
  | ctxFail : String → PwStep
  | navFail : String → PwStep
  | okCards : List Card → PwStep
deriving DecidableEq

/-- src/issue_scraper.py lines 229-271, `scrape_with_requests`: reading the
unbound name `REQUESTS_AVAILABLE` raises `NameError`; with the flag false
the function returns `([], [])`; otherwise any exception from the GET or the
parsing is caught by the `except` at line 269 and yields `([], [])`, and on
success all extracted records are returned as matching with `non_matching`
empty (line 267). -/
def scrape_with_requests (env : Env) (_company_name : String) (w : RqStep) :
    Outcome (List SRecord × List SRecord) :=
  match env.requests_available with
  | none => Outcome.raises "NameError: name REQUESTS_AVAILABLE is not defined"
  | some false => Outcome.ok ([], [])
  | some true =>
    match w with
    | RqStep.httpFail _ => Outcome.ok ([], [])
    | RqStep.okCards cards => Outcome.ok (extractStatic cards, [])

/-- src/issue_scraper.py lines 92-227, `scrape_with_playwright`: a failure
of `init_playwright` or of context/page creation is re-raised by the inner
`except` (line 214) and then caught by the outer `except` (line 225), which
returns `([], [])`; any exception in the navigation/consent/wait/scroll/
extraction phase is caught by the innermost `except` (line 208), which
returns `([], [])`; on success the extracted records are deduplicated and
classified.  The cookie-consent step and the `finally` cleanup swallow their
own exceptions and do not affect the returned value. -/
def scrape_with_playwright (company_name : String) (w : PwStep) :
    Outcome (List Record × List Record) :=
  match w with
  | PwStep.initFail _ => Outcome.ok ([], [])
  | PwStep.ctxFail _ => Outcome.ok ([], [])
  | PwStep.navFail _ => Outcome.ok ([], [])
  | PwStep.okCards cards =>
    Outcome.ok (classify company_name (dedupByTitle (extractDynamic cards)))

/-! ## Single-Company Scraper

src/issue_scraper.py lines 273-295, `scrape_issuu_results`.  Besides the
returned value the embedding records which retrievers were invoked (every
network interaction happens inside a retriever, so an empty trace means no
network call). -/

/-- A retrieval path that `scrape_issuu_results` actually invoked. -/
inductive Attempt where
  | static : Attempt
  | dynamic : Attempt
deriving DecidableEq

/-- Lines 287-295: the Playwright fallback section at the end of
`scrape_issuu_results`; a raise from `scrape_with_playwright` is caught
(lines 291-292) and the function falls through to `return [], []`. -/
def pwFallback (env : Env) (company_name : String) (wP : PwStep) :
    List Attempt × Outcome (List PubRecord × List PubRecord) :=
  if env.playwright_available then
    match scrape_with_playwright company_name wP with
    | Outcome.ok (m, nm) =>
      ([Attempt.dynamic], Outcome.ok (m.map Record.toPub, nm.map Record.toPub))
    | Outcome.raises _ => ([Attempt.dynamic], Outcome.ok ([], []))
  else ([], Outcome.ok ([], []))

/-- Lines 273-295, `scrape_issuu_results`, with the invocation trace: an
empty or whitespace-only name returns `([], [])` before anything else; the
unguarded read of `REQUESTS_AVAILABLE` (line 279) raises `NameError` when
the name is unbound; when it is true the requests path is invoked and its
value returned directly (line 282) — only a raise from it would reach the
Playwright section; otherwise the Playwright section runs. -/
def scrape_issuu_resultsT (env : Env) (company_name : String) (wR : RqStep)
    (wP : PwStep) : List Attempt × Outcome (List PubRecord × List PubRecord) :=
  if pyStrip company_name = "" then ([], Outcome.ok ([], []))
  else
    match env.requests_available with
    | none =>
      ([], Outcome.raises "NameError: name REQUESTS_AVAILABLE is not defined")
    | some true =>
      match scrape_with_requests env company_name wR with
      | Outcome.ok (m, nm) =>
        ([Attempt.static],
          Outcome.ok (m.map SRecord.toPub, nm.map SRecord.toPub))
      | Outcome.raises _ =>
        let f := pwFallback env company_name wP
        (Attempt.static :: f.1, f.2)
    | some false => pwFallback env company_name wP

/-- The value `scrape_issuu_results` returns (or the exception it raises). -/
def scrape_issuu_results (env : Env) (company_name : String) (wR : RqStep)
    (wP : PwStep) : Outcome (List PubRecord × List PubRecord) :=
  (scrape_issuu_resultsT env company_name wR wP).2

/-! ## Batch Orchestrator

src/streamlit_app.py lines 45-72, `process_companies`: the input list is cut
into consecutive chunks of `batch_size`; the scrapes of one chunk run under
`asyncio.gather(..., return_exceptions=True)`, which preserves order and
turns a raised exception into a per-item value; each outcome is recorded as
one result dict.  `range(0, n, 0)` raises `ValueError`, so a zero
`batch_size` raises.  The scraper is abstracted as an oracle from company
name to outcome. -/

/-- One result dict of `process_companies` (lines 54-70). -/
structure CompanyScrapeResult where
  company : String
  matching_results : List PubRecord
  non_matching_results : List PubRecord
  error : Option String
deriving DecidableEq

/-- Lines 55-70: how one company's outcome is recorded. -/
def mkCompanyResult (company : String)
    (r : Outcome (List PubRecord × List PubRecord)) : CompanyScrapeResult :=
  match r with
  | Outcome.raises msg => ⟨company, [], [], some msg⟩
  | Outcome.ok (m, nm) => ⟨company, m, nm, none⟩

/-- The chunking loop of `process_companies`; the chunk size is `bs1 + 1`
(`batch_size` is positive here since `range` would otherwise have raised). -/
def processChunks (f : String → Outcome (List PubRecord × List PubRecord))
    (bs1 : Nat) : List String → List CompanyScrapeResult
  | [] => []
  | c :: rest =>
    ((c :: rest).take (bs1 + 1)).map (fun co => mkCompanyResult co (f co))
      ++ processChunks f bs1 ((c :: rest).drop (bs1 + 1))
  termination_by l => l.length
  decreasing_by simp; omega

/-- src/streamlit_app.py lines 45-72, `process_companies`. -/
def process_companies (f : String → Outcome (List PubRecord × List PubRecord))
    (companies : List String) (batch_size : Nat) :
    Outcome (List CompanyScrapeResult) :=
  if batch_size = 0 then Outcome.raises "ValueError: range() arg 3 must not be zero"
  else Outcome.ok (processChunks f (batch_size - 1) companies)

/-! ## Claims -/

/-- C7: a company name that strips to the empty string makes
`scrape_issuu_results` return `([], [])` at once, whatever the import flags
and the external world would have done: no retriever is invoked (empty
attempt trace, hence no network call). -/
theorem C7_empty_name_short_circuits (env : Env) (name : String)
    (wR : RqStep) (wP : PwStep) (h : pyStrip name = "") :
    scrape_issuu_resultsT env name wR wP = ([], Outcome.ok ([], [])) := by
  simp [scrape_issuu_resultsT, h]

/-- C7 witness: a whitespace-only name, with both backends in their most
capable state, yields the empty result with an empty attempt trace. -/
theorem C7_witness :
    scrape_issuu_resultsT (moduleEnv false true) " \t\n " (RqStep.okCards [])
      (PwStep.okCards []) = ([], Outcome.ok ([], [])) :=
  C7_empty_name_short_circuits (moduleEnv false true) " \t\n "
    (RqStep.okCards []) (PwStep.okCards []) (by decide)

/-- C8: whenever `scrape_with_requests` returns a pair, its `non_matching`
component is empty, and on a successful extraction all extracted records are
returned in the `matching` component. -/
theorem C8_static_non_matching_empty (env : Env) (name : String) (w : RqStep) :
    (∀ pair, scrape_with_requests env name w = Outcome.ok pair → pair.2 = [])
      ∧ (∀ cards, env.requests_available = some true → w = RqStep.okCards cards →
          scrape_with_requests env name w = Outcome.ok (extractStatic cards, [])) := by
  obtain ⟨pw, ra⟩ := env
  cases ra with
  | none => simp [scrape_with_requests]
  | some b => cases b <;> cases w <;> simp [scrape_with_requests]

/-- C8 witness: a concrete successful static run returns its one extracted
record as matching and an empty non-matching list. -/
theorem C8_witness :
    scrape_with_requests (moduleEnv false true) "Acme Corp"
        (RqStep.okCards [⟨some "Doc", some (some "/docs/d1")⟩])
      = Outcome.ok ([⟨"Doc", "https://issuu.com/docs/d1"⟩], []) :=
  (C8_static_non_matching_empty (moduleEnv false true) "Acme Corp"
      (RqStep.okCards [⟨some "Doc", some (some "/docs/d1")⟩])).2
    [⟨some "Doc", some (some "/docs/d1")⟩] (by decide) rfl

/-- C2 counterexample: a session-acquisition failure (`init_playwright`
raising) is NOT propagated out of `scrape_with_playwright` — the outer
`except` at line 225 catches it and the caller receives `([], [])`, contrary
to the claim. -/
theorem C2_counterexample :
    scrape_with_playwright "Acme Corp"
        (PwStep.initFail "Could not initialize Playwright browser")
      = Outcome.ok ([], [])
    ∧ scrape_with_playwright "Acme Corp"
        (PwStep.initFail "Could not initialize Playwright browser")
      ≠ Outcome.raises "Could not initialize Playwright browser" :=
  ⟨by decide, by decide⟩

/-- C2 amended: every exception inside `scrape_with_playwright` — session
acquisition, context/page creation, navigation, selector wait and extraction
alike — is caught at the component boundary and reported as empty result
lists; the component never propagates an exception to its caller. -/
theorem C2_all_exceptions_swallowed (name : String) (w : PwStep) :
    (∃ pair, scrape_with_playwright name w = Outcome.ok pair)
      ∧ (∀ msg, w = PwStep.initFail msg ∨ w = PwStep.ctxFail msg
            ∨ w = PwStep.navFail msg →
          scrape_with_playwright name w = Outcome.ok ([], [])) := by
  cases w <;>
    simp [scrape_with_playwright]

/-- C2 witness: a concrete selector-timeout failure yields the empty pair. -/
theorem C2_witness :
    scrape_with_playwright "Acme Corp" (PwStep.navFail "Timeout 30000ms exceeded")
      = Outcome.ok ([], []) :=
  (C2_all_exceptions_swallowed "Acme Corp"
      (PwStep.navFail "Timeout 30000ms exceeded")).2
    "Timeout 30000ms exceeded" (Or.inr (Or.inr rfl))

/-- C3: the code contradicts the never-raise contract.  When the import of
Playwright succeeds, the name `REQUESTS_AVAILABLE` is never bound (lines 21-28
bind it only under `if not PLAYWRIGHT_AVAILABLE`), so the unguarded
`if REQUESTS_AVAILABLE:` at line 279 raises `NameError` for every non-empty
company name, which propagates to the caller of `scrape_issuu_results`. -/
theorem C3_bug_raises_nameerror :
    scrape_issuu_results (moduleEnv true true) "Acme Corp"
        (RqStep.okCards []) (PwStep.okCards [])
      = Outcome.raises "NameError: name REQUESTS_AVAILABLE is not defined" := by
  decide

/-- C1 counterexample: with the static backend available and its retrieval
failing (an HTTP error), `scrape_issuu_results` returns the empty result
directly; the Dynamic path is never attempted — contrary to the claim that a
Static-path retrieval failure results in the Dynamic path being tried before
the empty result is returned. -/
theorem C1_counterexample :
    scrape_issuu_resultsT (moduleEnv false true) "Acme Corp"
        (RqStep.httpFail "HTTPError: 503 Server Error") (PwStep.okCards [])
      = ([Attempt.static], Outcome.ok ([], []))
    ∧ Attempt.dynamic ∉
        (scrape_issuu_resultsT (moduleEnv false true) "Acme Corp"
          (RqStep.httpFail "HTTPError: 503 Server Error") (PwStep.okCards [])).1 :=
  ⟨by decide, by decide⟩

/-- C1 amended: for every non-empty company name, the Static path is
attempted first (and alone) when it is available, and its value — including
the empty pair it produces on an internal retrieval failure — is returned
directly, so the Dynamic path is never tried after a Static-path failure;
when the static backend is recorded unavailable (its import failed), no path
is attempted at all, because the Dynamic fallback additionally requires
`PLAYWRIGHT_AVAILABLE`, which is false in every environment where
`REQUESTS_AVAILABLE` is bound. -/
theorem C1_static_first_no_dynamic_fallback (name : String) (wR : RqStep)
    (wP : PwStep) (h : ¬ pyStrip name = "") :
    ((scrape_issuu_resultsT (moduleEnv false true) name wR wP).1
        = [Attempt.static])
      ∧ ((scrape_issuu_resultsT (moduleEnv false true) name wR wP).2
          = (match scrape_with_requests (moduleEnv false true) name wR with
             | Outcome.ok (m, nm) =>
               Outcome.ok (m.map SRecord.toPub, nm.map SRecord.toPub)
             | Outcome.raises _ => Outcome.ok ([], [])))
      ∧ (scrape_issuu_resultsT (moduleEnv false false) name wR wP
          = ([], Outcome.ok ([], []))) := by
  cases wR <;>
    simp [scrape_issuu_resultsT, scrape_with_requests, pwFallback, moduleEnv, h]

/-- C1 witness: a concrete non-empty name on a concrete static success. -/
theorem C1_witness :
    (scrape_issuu_resultsT (moduleEnv false true) "Acme Corp"
        (RqStep.okCards [⟨some "Doc", some (some "/docs/d1")⟩])
        (PwStep.okCards [])).1 = [Attempt.static] :=
  (C1_static_first_no_dynamic_fallback "Acme Corp"
      (RqStep.okCards [⟨some "Doc", some (some "/docs/d1")⟩])
      (PwStep.okCards []) (by decide)).1

/-- The chunking loop records every company, in input order, each through
`mkCompanyResult` of its own outcome alone. -/
theorem processChunks_map (f : String → Outcome (List PubRecord × List PubRecord))
    (bs1 : Nat) (l : List String) :
    processChunks f bs1 l = l.map (fun c => mkCompanyResult c (f c)) := by
  match l with
  | [] => simp [processChunks]
  | c :: rest =>
    simp only [processChunks]
    rw [processChunks_map f bs1 ((c :: rest).drop (bs1 + 1))]
    rw [← List.map_append, List.take_append_drop]
  termination_by l.length
  decreasing_by simp; omega

/-- C4: for every scraper oracle, company list and positive concurrency
limit, `process_companies` returns exactly one `CompanyScrapeResult` per
input company, in input order; each entry is computed from that company's
own outcome alone (so a raise in one company cannot remove or alter any
other company's entry, in the same chunk or a later one), and a raised
exception is recorded as that company's error string with empty matching
and non-matching lists. -/
theorem C4_batch_isolation
    (f : String → Outcome (List PubRecord × List PubRecord))
    (companies : List String) (batch_size : Nat) (h : batch_size ≠ 0) :
    process_companies f companies batch_size
        = Outcome.ok (companies.map (fun c => mkCompanyResult c (f c)))
      ∧ (∀ c msg, mkCompanyResult c (Outcome.raises msg)
          = ⟨c, [], [], some msg⟩) := by
  refine ⟨?_, fun c msg => rfl⟩
  simp [process_companies, h, processChunks_map]

/-- A scraper oracle for the C4 witness: company #3 raises, all others
succeed with an empty pair. -/
def demoScraper : String → Outcome (List PubRecord × List PubRecord) :=
  fun c => if c = "company3" then Outcome.raises "boom" else Outcome.ok ([], [])

/-- C4 witness: seven companies at concurrency limit 5 (two chunks), with a
forced failure in company #3, give one record per company in input order. -/
theorem C4_witness :
    process_companies demoScraper
        ["company1", "company2", "company3", "company4", "company5",
          "company6", "company7"] 5
      = Outcome.ok
          ((["company1", "company2", "company3", "company4", "company5",
              "company6", "company7"]).map
            (fun c => mkCompanyResult c (demoScraper c))) :=
  (C4_batch_isolation demoScraper
      ["company1", "company2", "company3", "company4", "company5",
        "company6", "company7"] 5 (by decide)).1

/-- The dedup loop never invents or reorders records: its output is a
sublist of its input. -/
theorem dedupAux_sublist (l : List Record) :
    ∀ seen : List String, (dedupAux seen l).Sublist l := by
  induction l with
  | nil => intro seen; simp [dedupAux]
  | cons r rest ih =>
    intro seen
    by_cases h : r.title ∈ seen
    · simp only [dedupAux, if_pos h]
      exact (ih seen).cons r
    · simp only [dedupAux, if_neg h]
      exact (ih (r.title :: seen)).cons₂ r

/-- The records of a given title surviving the dedup loop: none when the
title was already seen, otherwise exactly the first input record with that
title. -/
theorem dedupAux_filter (t : String) (l : List Record) :
    ∀ seen : List String,
      (dedupAux seen l).filter (fun r => r.title == t)
        = if t ∈ seen then [] else (l.filter (fun r => r.title == t)).take 1 := by
  induction l with
  | nil => intro seen; simp [dedupAux]
  | cons r rest ih =>
    intro seen
    by_cases hs : r.title ∈ seen
    · simp only [dedupAux, if_pos hs]
      rw [ih seen]
      by_cases ht : t ∈ seen
      · simp [ht]
      · have hrt : (r.title == t) = false := by
          simp only [beq_eq_false_iff_ne, ne_eq]
          intro e; exact ht (e ▸ hs)
        simp [ht, List.filter_cons, hrt]
    · simp only [dedupAux, if_neg hs]
      by_cases hrt : r.title = t
      · have ht : t ∉ seen := fun hmem => hs (hrt ▸ hmem)
        rw [List.filter_cons_of_pos (by simp [hrt])]
        rw [ih (r.title :: seen)]
        rw [if_pos (by simp [hrt])]
        rw [if_neg ht, List.filter_cons_of_pos (by simp [hrt])]
        simp
      · rw [List.filter_cons_of_neg (by simp [hrt])]
        rw [ih (r.title :: seen)]
        rw [List.filter_cons_of_neg (by simp [hrt])]
        by_cases ht : t ∈ seen
        · simp [ht, hrt]
        · have hne : t ∉ r.title :: seen := by
            simp only [List.mem_cons, not_or]
            exact ⟨fun e => hrt e.symm, ht⟩
          simp [ht, hne]

/-- C5: deduplication keeps, for each distinct title (exact, case-sensitive
string equality), exactly the first record seen with that title — every
later record with an already-seen title is dropped — and the kept records
appear in their original encounter order (the output is a sublist of the
input). -/
theorem C5_dedup_keeps_first_per_title (l : List Record) :
    (dedupByTitle l).Sublist l
      ∧ ∀ t : String, (dedupByTitle l).filter (fun r => r.title == t)
          = (l.filter (fun r => r.title == t)).take 1 := by
  refine ⟨dedupAux_sublist l [], fun t => ?_⟩
  have h := dedupAux_filter t l []
  simpa [dedupByTitle] using h

/-- Splitting a list by a boolean predicate loses no element. -/
theorem length_filter_add_length_filter_not (p : α → Bool) (l : List α) :
    (l.filter p).length + (l.filter (fun a => !p a)).length = l.length := by
  induction l with
  | nil => rfl
  | cons a l ih => cases h : p a <;> simp [List.filter_cons, h] <;> omega

/-- C6: the classifier's threshold is the fixed constant `0.8 = 4/5`; a
record of the input list lands in the matching sequence exactly when its
similarity score is at least the threshold (so a score of exactly `4/5` is
matching) and in the non-matching sequence exactly when its score is
strictly below it; both sequences preserve first-seen order and together
they contain every input record exactly once. -/
theorem C6_threshold_partition (company : String) (l : List Record) :
    similarity_threshold = 4 / 5
      ∧ (∀ r, r ∈ (classify company l).1
          ↔ r ∈ l ∧ similarity_threshold ≤ recordScore company r)
      ∧ (∀ r, r ∈ (classify company l).2
          ↔ r ∈ l ∧ recordScore company r < similarity_threshold)
      ∧ (classify company l).1.Sublist l
      ∧ (classify company l).2.Sublist l
      ∧ (classify company l).1.length + (classify company l).2.length
          = l.length := by
  have hthr : similarity_threshold = 4 / 5 := by
    rw [similarity_threshold, Rat.mkRat_eq_div]
    norm_num
  have hcl : classify company l
      = (l.filter (fun r => decide (similarity_threshold ≤ recordScore company r)),
         l.filter (fun r => !decide (similarity_threshold ≤ recordScore company r))) := by
    rw [classify, List.partition_eq_filter_filter]
    rfl
  refine ⟨hthr, ?_, ?_, ?_, ?_, ?_⟩
  · intro r
    rw [hcl]
    simp [List.mem_filter]
  · intro r
    rw [hcl]
    simp only [List.mem_filter, Bool.not_eq_true', decide_eq_false_iff_not, not_le]
  · rw [hcl]; exact List.filter_sublist l
  · rw [hcl]; exact List.filter_sublist l
  · rw [hcl]
    exact length_filter_add_length_filter_not _ l

/-- A concrete record whose author slug is `abc`. -/
def recAbc : Record :=
  ⟨"Annual Report", "https://issuu.com/abc", "$5.00", "https://issuu.com/abc/docs/report"⟩

/-- C6 witness: against the company name `AB` the record `recAbc` scores
exactly `0.8` and is classified matching, while a score of `0.7999` would be
strictly below the threshold. -/
theorem C6_witness :
    recAbc ∈ (classify "AB" [recAbc]).1
      ∧ recordScore "AB" recAbc = similarity_threshold
      ∧ mkRat 7999 10000 < similarity_threshold :=
  ⟨((C6_threshold_partition "AB" [recAbc]).2.1 recAbc).mpr
      ⟨by simp, by decide⟩,
    by decide, by decide⟩

/-- A string with a non-empty prefix is non-empty. -/
theorem append_ne_empty (p x : String) (hp : 0 < p.length) : p ++ x ≠ "" := by
  intro h
  have hlen := congrArg String.length h
  rw [String.length_append] at hlen
  have h0 : String.length "" = 0 := rfl
  rw [h0] at hlen
  omega

/-- A truthy optional string holds a non-empty value. -/
theorem jsTruthy_getD {o : Option String} (h : jsTruthy o = true) :
    o.getD "" ≠ "" := by
  cases o with
  | none => simp [jsTruthy] at h
  | some s =>
    simp only [jsTruthy, Bool.not_eq_true'] at h
    simpa using h

/-- Every record the dynamic extraction emits has all four fields non-empty
(the in-page script keeps a card only when all four read-outs are truthy,
and links get a non-empty origin prefix). -/
theorem extractDynamic_fields {cards : List Card} {r : Record}
    (hr : r ∈ extractDynamic cards) :
    r.title ≠ "" ∧ r.author_link ≠ "" ∧ r.price ≠ "" ∧ r.publication_link ≠ "" := by
  rw [extractDynamic, List.mem_filterMap] at hr
  obtain ⟨c, _, hc⟩ := hr
  rw [dynCard] at hc
  split at hc
  case isFalse => exact absurd hc (by simp)
  case isTrue h =>
    obtain rfl := Option.some.inj hc
    simp only [Bool.and_eq_true] at h
    obtain ⟨⟨⟨h1, h2⟩, h3⟩, h4⟩ := h
    refine ⟨jsTruthy_getD h1, append_ne_empty _ _ (by decide), jsTruthy_getD h3, ?_⟩
    simp only
    split
    · exact jsTruthy_getD h4
    · exact append_ne_empty _ _ (by decide)

/-- C9 counterexample: the Static retriever emits, for a well-formed result
container, a record that carries only `title` and `publication_link`; its
`author_link` and `price` fields are absent — contrary to the claim that
every record emitted by either retriever has all four fields present. -/
theorem C9_counterexample :
    scrape_with_requests (moduleEnv false true) "Acme Corp"
        (RqStep.okCards [⟨some "Brochure", some (some "/acme/docs/b1")⟩])
      = Outcome.ok ([⟨"Brochure", "https://issuu.com/acme/docs/b1"⟩], [])
    ∧ (SRecord.toPub ⟨"Brochure", "https://issuu.com/acme/docs/b1"⟩).author_link = none
    ∧ (SRecord.toPub ⟨"Brochure", "https://issuu.com/acme/docs/b1"⟩).price = none :=
  ⟨by decide, rfl, rfl⟩

/-- C9 amended: every record the Dynamic retriever returns to its caller has
all four fields present and non-empty (a card missing any of the four, or
with an empty value, is dropped during extraction); the Static retriever's
records instead carry only `title` and `publication_link` — their
`author_link` and `price` are always absent. -/
theorem C9_record_fields :
    (∀ (name : String) (w : PwStep) (m nm : List Record),
        scrape_with_playwright name w = Outcome.ok (m, nm) →
        ∀ r, r ∈ m ++ nm →
          r.title ≠ "" ∧ r.author_link ≠ "" ∧ r.price ≠ ""
            ∧ r.publication_link ≠ "")
      ∧ (∀ (env : Env) (name : String) (w : RqStep) (m nm : List SRecord),
          scrape_with_requests env name w = Outcome.ok (m, nm) →
          ∀ r, r ∈ m ++ nm →
            (SRecord.toPub r).author_link = none
              ∧ (SRecord.toPub r).price = none) := by
  constructor
  · intro name w m nm hok r hr
    cases w with
    | initFail msg =>
      simp only [scrape_with_playwright, Outcome.ok.injEq, Prod.mk.injEq] at hok
      obtain ⟨hm, hnm⟩ := hok
      rw [← hm, ← hnm] at hr
      simp at hr
    | ctxFail msg =>
      simp only [scrape_with_playwright, Outcome.ok.injEq, Prod.mk.injEq] at hok
      obtain ⟨hm, hnm⟩ := hok
      rw [← hm, ← hnm] at hr
      simp at hr
    | navFail msg =>
      simp only [scrape_with_playwright, Outcome.ok.injEq, Prod.mk.injEq] at hok
      obtain ⟨hm, hnm⟩ := hok
      rw [← hm, ← hnm] at hr
      simp at hr
    | okCards cards =>
      simp only [scrape_with_playwright, Outcome.ok.injEq] at hok
      rw [classify, List.partition_eq_filter_filter, Prod.mk.injEq] at hok
      obtain ⟨hm, hnm⟩ := hok
      have hmem : r ∈ dedupByTitle (extractDynamic cards) := by
        rcases List.mem_append.mp hr with h | h
        · exact (List.mem_filter.mp (hm ▸ h)).1
        · exact (List.mem_filter.mp (hnm ▸ h)).1
      exact extractDynamic_fields
        ((dedupAux_sublist (extractDynamic cards) []).subset hmem)
  · intro env name w m nm _ r _
    exact ⟨rfl, rfl⟩

/-- A complete result card for the C9 witness. -/
def fullCard : Card := ⟨some "Brochure", some "abc", some "$5.00", some "docs/b1"⟩

/-- The record the dynamic extraction produces from `fullCard`. -/
def recBrochure : Record :=
  ⟨"Brochure", "https://issuu.com/abc", "$5.00", "https://issuu.com/docs/b1"⟩

/-- C9 witness: the record extracted from a complete card and returned by a
concrete successful Playwright run has all four fields non-empty. -/
theorem C9_witness :
    recBrochure.title ≠ "" ∧ recBrochure.author_link ≠ ""
      ∧ recBrochure.price ≠ "" ∧ recBrochure.publication_link ≠ "" :=
  C9_record_fields.1 "abc" (PwStep.okCards [fullCard]) [recBrochure] []
    (by decide) recBrochure (by simp)

set_option maxRecDepth 8192 in
/-- Case-map facts for every ASCII code point, checked exhaustively:
lowering an uppercased character equals lowering it, lowering is
idempotent, and no ASCII character is U+00DF. -/
theorem ascii_char_case : ∀ n ∈ List.range 128,
    (Char.ofNat n).toUpper.toLower = (Char.ofNat n).toLower
      ∧ (Char.ofNat n).toLower.toLower = (Char.ofNat n).toLower
      ∧ Char.ofNat n ≠ 'ß' := by decide

/-- The three case-map facts, for an arbitrary ASCII character. -/
theorem char_case_of_ascii (c : Char) (h : c.toNat < 128) :
    c.toUpper.toLower = c.toLower ∧ c.toLower.toLower = c.toLower
      ∧ c ≠ 'ß' := by
  have h1 := ascii_char_case c.toNat (List.mem_range.mpr h)
  rwa [Char.ofNat_toNat] at h1

/-- The character-wise lower map distributed over list append. -/
theorem pyLowerL_append (x y : List Char) :
    pyLowerL (x ++ y) = pyLowerL x ++ pyLowerL y := by
  simp [pyLowerL]

/-- On ASCII input, lowering after uppering equals lowering. -/
theorem pyLowerL_upperL (l : List Char) (h : ∀ c ∈ l, c.toNat < 128) :
    pyLowerL (pyUpperL l) = pyLowerL l := by
  induction l with
  | nil => rfl
  | cons c l ih =>
    obtain ⟨hcu, _, hcb⟩ := char_case_of_ascii c (h c (by simp))
    have hup : pyUpperL (c :: l) = pyCharUpperL c ++ pyUpperL l := by
      simp [pyUpperL]
    rw [hup, pyLowerL_append, ih (fun x hx => h x (by simp [hx]))]
    have hchar : pyLowerL (pyCharUpperL c) = pyCharLowerL c := by
      rw [pyCharUpperL, if_neg hcb]
      simp [pyLowerL, pyCharLowerL, hcu]
    rw [hchar]
    simp [pyLowerL, pyCharLowerL]

/-- On ASCII input, the lower map is idempotent. -/
theorem pyLowerL_idem (l : List Char) (h : ∀ c ∈ l, c.toNat < 128) :
    pyLowerL (pyLowerL l) = pyLowerL l := by
  induction l with
  | nil => rfl
  | cons c l ih =>
    obtain ⟨_, hcl, _⟩ := char_case_of_ascii c (h c (by simp))
    have hlo : pyLowerL (c :: l) = pyCharLowerL c ++ pyLowerL l := by
      simp [pyLowerL]
    rw [hlo, pyLowerL_append, ih (fun x hx => h x (by simp [hx]))]
    simp [pyCharLowerL, pyLowerL, hcl]

/-- C10 counterexample: the claimed case invariance fails on U+00DF, whose
Python uppercase is the two-letter string `SS` while its lowercase is
itself: `calculate_similarity` sees `ß` against `ss` on the left (score 0)
but `ss` against `ss` on the right (score 1). -/
theorem C10_counterexample :
    calculate_similarity "ß" "ss" = 0
      ∧ calculate_similarity (pyUpper "ß") (pyLower "ss") = 1
      ∧ calculate_similarity "ß" "ss"
          ≠ calculate_similarity (pyUpper "ß") (pyLower "ss") :=
  ⟨by decide, by decide, by decide⟩

/-- C10 amended: for all strings of ASCII characters the similarity score
is invariant under case changes of its inputs — `score(a, b)` equals
`score(a.upper(), b.lower())` — because both arguments are lower-cased
before the sequence-alignment ratio is computed. -/
theorem C10_case_invariance_ascii (a b : String)
    (ha : ∀ c ∈ a.data, c.toNat < 128) (hb : ∀ c ∈ b.data, c.toNat < 128) :
    calculate_similarity a b
      = calculate_similarity (pyUpper a) (pyLower b) := by
  show ratioOf (pyLowerL a.data) (pyLowerL b.data)
      = ratioOf (pyLowerL (pyUpperL a.data)) (pyLowerL (pyLowerL b.data))
  rw [pyLowerL_upperL a.data ha, pyLowerL_idem b.data hb]

/-- C10 witness: a concrete mixed-case ASCII pair. -/
theorem C10_witness :
    calculate_similarity "AbC xy" "Qr S"
      = calculate_similarity (pyUpper "AbC xy") (pyLower "Qr S") :=
  C10_case_invariance_ascii "AbC xy" "Qr S" (by decide) (by decide)
